import Mathlib

/-!
Verification of the Unmasked frontend (React/TypeScript client of a Flask REST
backend) against its natural-language specification.

The TypeScript sources are shallowly embedded below:

* JavaScript strings are modelled as Lean `String`, JS numbers used as counts
  or sizes as `Nat`/`Int`, and the report confidence values (floating point in
  the source) as `Rat`; the two places that format a confidence with
  `Number.prototype.toFixed` take the formatting function as an explicit
  parameter, since IEEE-754 decimal rendering is not modelled.
* A call to the browser `fetch` is modelled by a `FetchOutcome` supplied by an
  oracle: the promise either rejects (with an `Error` carrying a message, or a
  non-`Error` value) or resolves with an `ok` flag, an HTTP status, the
  result of `response.json()` and the result of `response.text()` (each of
  which may itself reject).
* Each API service method is a `FetchEff` program: a tree whose `fetch` nodes
  carry the request the method builds (URL, HTTP method, whether the
  `Content-Type: application/json` header is set, and the body) and whose
  leaves carry the value the method returns.  Running a program against an
  oracle yields the returned object, the number of fetches issued and the
  list of requests issued.
* `localStorage` is an association list from keys to stored values; because a
  full JSON parser is not embedded, a stored value is represented by what
  `JSON.parse` turns it into: `malformed` (parse throws), `nonSession`
  (parses, but not to an object with the session fields) or `session s`.
-/

/-- Value rejected by a promise or thrown, as seen by a `catch` block:
either an `Error` instance with its `message` string, or a non-`Error` value. -/
inductive JsError where
  | error (msg : String)
  | nonError
deriving DecidableEq

/-- The expression `err instanceof Error ? err.message : fallback` that every
service method uses in its catch block. -/
def JsError.messageOr (fallback : String) : JsError → String
  | .error m => m
  | .nonError => fallback

/-- Outcome of one `fetch` call: the promise rejects, or resolves with an `ok`
flag, an HTTP status code, the outcome of parsing the body via
`response.json()` and the outcome of reading the body text via
`response.text()` (the text read is performed only by the non-ok logging
branch of `ForumApiService.getPosts`; the other methods never consult it). -/
inductive FetchOutcome (β : Type) where
  | reject (e : JsError)
  | resolve (ok : Bool) (httpStatus : Nat) (jsonBody : Except JsError β)
      (textBody : Except JsError String)

/-- Minimal JSON value, used to record that a request body is built by
`JSON.stringify` applied to a typed object. -/
inductive JsonLite where
  | str (s : String)
  | num (n : Int)
  | obj (fields : List (String × JsonLite))

/-- Body attached to a request: a `JSON.stringify` serialization of a typed
object, or a multipart `FormData` (as built by `predictVideo`). -/
inductive ReqBody where
  | jsonOf (v : JsonLite)
  | formData (fileName : String)

/-- The request a service method hands to `fetch`: URL, HTTP method, whether
the headers carry `Content-Type: application/json`, and the optional body.
URL percent-encoding of query parameters is not modelled. -/
structure FetchRequest where
  url : String
  httpMethod : String
  contentTypeJson : Bool
  body : Option ReqBody

/-- The part of a service response object that the verified claims mention:
its `status` field (the error paths always set the literal `'error'`) and its
optional `message` field.  Further payload fields (`users`, `reports`, ...) do
not occur in the claims and are not modelled. -/
structure RespBody where
  status : String
  message : Option String
deriving DecidableEq

/-- Effectful program of a service method: each `fetch` node records the
request issued and continues with the outcome of that fetch. -/
inductive FetchEff (β α : Type) where
  | done (a : α)
  | fetch (req : FetchRequest) (k : FetchOutcome β → FetchEff β α)

/-- Run a program against an oracle that supplies the outcome of the i-th
fetch. -/
def FetchEff.runFrom (oracle : Nat → FetchOutcome β) : Nat → FetchEff β α → α
  | _, .done a => a
  | i, .fetch _ k => FetchEff.runFrom oracle (i + 1) (k (oracle i))

def FetchEff.run (oracle : Nat → FetchOutcome β) (p : FetchEff β α) : α :=
  p.runFrom oracle 0

/-- Number of fetches a program issues along the path determined by the
oracle. -/
def FetchEff.countFrom (oracle : Nat → FetchOutcome β) : Nat → FetchEff β α → Nat
  | _, .done _ => 0
  | i, .fetch _ k => FetchEff.countFrom oracle (i + 1) (k (oracle i)) + 1

def FetchEff.count (oracle : Nat → FetchOutcome β) (p : FetchEff β α) : Nat :=
  p.countFrom oracle 0

/-- Requests a program issues along the path determined by the oracle. -/
def FetchEff.requestsFrom (oracle : Nat → FetchOutcome β) :
    Nat → FetchEff β α → List FetchRequest
  | _, .done _ => []
  | i, .fetch r k => r :: FetchEff.requestsFrom oracle (i + 1) (k (oracle i))

def FetchEff.requests (oracle : Nat → FetchOutcome β) (p : FetchEff β α) :
    List FetchRequest :=
  p.requestsFrom oracle 0

/-- JavaScript truthiness of the optional `message` field of a parsed error
body: present and a non-empty string. -/
def truthyMsg : Option String → Bool
  | none => false
  | some s => !s.isEmpty

/-- The string of the template literal thrown on a non-ok response. -/
def httpErrorMsg (status : Nat) : String :=
  "HTTP error! status: " ++ toString status

def apiBase : String := "http://localhost:5000/api"

/-- Shared shape of the try/catch bodies that throw a plain
`HTTP error! status` on a non-ok response and report
`error instanceof Error ? error.message : fallback` from the catch. -/
def handleResp (fallback : String) : FetchOutcome RespBody → RespBody
  | .reject e => ⟨"error", some (e.messageOr fallback)⟩
  | .resolve ok st body _ =>
    if ok then
      match body with
      | .ok b => b
      | .error e => ⟨"error", some (e.messageOr fallback)⟩
    else ⟨"error", some (httpErrorMsg st)⟩

/-- Shared shape of the try/catch bodies that first read
`errorData = await response.json().catch(() => ({}))` and throw
`new Error(errorData.message || httpError)` on a non-ok response. -/
def handleRespErrData (fallback : String) : FetchOutcome RespBody → RespBody
  | .reject e => ⟨"error", some (e.messageOr fallback)⟩
  | .resolve ok st body _ =>
    if ok then
      match body with
      | .ok b => b
      | .error e => ⟨"error", some (e.messageOr fallback)⟩
    else
      let errMsg : Option String := match body with
        | .ok b => b.message
        | .error _ => none
      ⟨"error", some (if truthyMsg errMsg then errMsg.getD "" else httpErrorMsg st)⟩

/-- Response handling of `ForumApiService.getPosts`: on a non-ok response it
first awaits `response.text()` (only to log it) and then throws the plain
`HTTP error! status`; if that text read itself rejects, the rejection reaches
the catch block and its message is reported instead. -/
def handleRespTextLog (fallback : String) : FetchOutcome RespBody → RespBody
  | .reject e => ⟨"error", some (e.messageOr fallback)⟩
  | .resolve ok st body textBody =>
    if ok then
      match body with
      | .ok b => b
      | .error e => ⟨"error", some (e.messageOr fallback)⟩
    else
      match textBody with
      | .ok _ => ⟨"error", some (httpErrorMsg st)⟩
      | .error e => ⟨"error", some (e.messageOr fallback)⟩

/-! ## Typed request payloads (src/src/services, src/unnamed/part_000..001) -/

/-- DOM `File` object: the fields the client reads. -/
structure JsFile where
  name : String
  type : String
  size : Nat
deriving DecidableEq

structure ExpertRequest where
  user_id : String
  name : String
  email : String
  file_reference : Option String
  description : String

structure Complaint where
  user_id : String
  name : String
  email : String
  type : String
  description : String
  evidence_file : Option String

structure Subscription where
  user_id : Option String
  email : String

structure CreateReportRequest where
  user_id : String
  file_name : String
  prediction : String
  confidence : Rat
  frames_analyzed : Option Int
  report_url : String
  model_version : Option String

structure CreateHistoryRequest where
  user_id : String
  action_type : String
  file_name : Option String
  prediction : Option String
  confidence : Option Rat
  news_title : Option String
  news_url : Option String
  report_url : Option String

structure CreateAnalysisRequest where
  user_id : String
  file_name : String
  prediction : String
  confidence : Rat
  processing_time : Option Rat

structure UpdateProfileData where
  name : Option String
  password : Option String
  current_password : Option String

/-- JSON.stringify leaves out fields whose value is `undefined`. -/
def optField (key : String) (v : Option String) : List (String × JsonLite) :=
  match v with
  | none => []
  | some s => [(key, .str s)]

/-- Rational rendered into a JSON number; the claims never inspect numeric
payload values, only that the body is a JSON serialization. -/
def ratJson (q : Rat) : JsonLite := .obj [("num", .num q.num), ("den", .num q.den)]

def optRatField (key : String) (v : Option Rat) : List (String × JsonLite) :=
  match v with
  | none => []
  | some q => [(key, ratJson q)]

def ExpertRequest.toJson (r : ExpertRequest) : JsonLite :=
  .obj ([("user_id", .str r.user_id), ("name", .str r.name), ("email", .str r.email)]
    ++ optField "file_reference" r.file_reference
    ++ [("description", .str r.description)])

def Complaint.toJson (c : Complaint) : JsonLite :=
  .obj ([("user_id", .str c.user_id), ("name", .str c.name), ("email", .str c.email),
    ("type", .str c.type), ("description", .str c.description)]
    ++ optField "evidence_file" c.evidence_file)

def Subscription.toJson (s : Subscription) : JsonLite :=
  .obj (optField "user_id" s.user_id ++ [("email", .str s.email)])

def CreateReportRequest.toJson (d : CreateReportRequest) : JsonLite :=
  .obj ([("user_id", .str d.user_id), ("file_name", .str d.file_name),
    ("prediction", .str d.prediction), ("confidence", ratJson d.confidence)]
    ++ (match d.frames_analyzed with | none => [] | some n => [("frames_analyzed", .num n)])
    ++ [("report_url", .str d.report_url)]
    ++ optField "model_version" d.model_version)

def CreateHistoryRequest.toJson (d : CreateHistoryRequest) : JsonLite :=
  .obj ([("user_id", .str d.user_id), ("action_type", .str d.action_type)]
    ++ optField "file_name" d.file_name
    ++ optField "prediction" d.prediction
    ++ optRatField "confidence" d.confidence
    ++ optField "news_title" d.news_title
    ++ optField "news_url" d.news_url
    ++ optField "report_url" d.report_url)

def CreateAnalysisRequest.toJson (d : CreateAnalysisRequest) : JsonLite :=
  .obj ([("user_id", .str d.user_id), ("file_name", .str d.file_name),
    ("prediction", .str d.prediction), ("confidence", ratJson d.confidence)]
    ++ optRatField "processing_time" d.processing_time)

def UpdateProfileData.toJson (d : UpdateProfileData) : JsonLite :=
  .obj (optField "name" d.name
    ++ optField "password" d.password
    ++ optField "current_password" d.current_password)

/-! ## AdminApiService (src/src/services/adminApi.ts) -/

def AdminApiService.resetUserData (userId : String) : FetchEff RespBody RespBody :=
  .fetch { url := apiBase ++ "/admin/reset-data", httpMethod := "POST",
           contentTypeJson := true,
           body := some (.jsonOf (.obj [("user_id", .str userId)])) }
    (fun f => .done (handleRespErrData "Failed to reset user data" f))

def AdminApiService.getAllUsers (adminId : String) : FetchEff RespBody RespBody :=
  .fetch { url := apiBase ++ "/admin/users?admin_id=" ++ adminId, httpMethod := "GET",
           contentTypeJson := true, body := none }
    (fun f => .done (handleRespErrData "Failed to fetch users" f))

def AdminApiService.getUserDetails (userId adminId : String) : FetchEff RespBody RespBody :=
  .fetch { url := apiBase ++ "/admin/users/" ++ userId ++ "?admin_id=" ++ adminId,
           httpMethod := "GET", contentTypeJson := true, body := none }
    (fun f => .done (handleRespErrData "Failed to fetch user details" f))

def AdminApiService.resetUserDataSingle (userId adminId : String) : FetchEff RespBody RespBody :=
  .fetch { url := apiBase ++ "/admin/users/" ++ userId ++ "/reset", httpMethod := "POST",
           contentTypeJson := true,
           body := some (.jsonOf (.obj [("admin_id", .str adminId)])) }
    (fun f => .done (handleRespErrData "Failed to reset user data" f))

def AdminApiService.deleteUser (userId adminId : String) : FetchEff RespBody RespBody :=
  .fetch { url := apiBase ++ "/admin/users/" ++ userId, httpMethod := "DELETE",
           contentTypeJson := true,
           body := some (.jsonOf (.obj [("admin_id", .str adminId)])) }
    (fun f => .done (handleRespErrData "Failed to delete user" f))

/-- Filters of `getAllReports`; each present filter is appended to the URL. -/
structure ReportFilters where
  result : Option String
  user_id : Option String
  date_from : Option String
  date_to : Option String

def optQuery (key : String) (v : Option String) : String :=
  match v with
  | none => ""
  | some s => "&" ++ key ++ "=" ++ s

def AdminApiService.getAllReports (adminId : String) (filters : ReportFilters) :
    FetchEff RespBody RespBody :=
  .fetch { url := apiBase ++ "/admin/reports?admin_id=" ++ adminId
             ++ optQuery "result" filters.result
             ++ optQuery "user_id" filters.user_id
             ++ optQuery "date_from" filters.date_from
             ++ optQuery "date_to" filters.date_to,
           httpMethod := "GET", contentTypeJson := true, body := none }
    (fun f => .done (handleRespErrData "Failed to fetch reports" f))

def AdminApiService.deleteReport (reportId adminId : String) : FetchEff RespBody RespBody :=
  .fetch { url := apiBase ++ "/admin/reports/" ++ reportId, httpMethod := "DELETE",
           contentTypeJson := true,
           body := some (.jsonOf (.obj [("admin_id", .str adminId)])) }
    (fun f => .done (handleRespErrData "Failed to delete report" f))

/-! ## SupportApiService (src/src/services/adminApi.ts, second class) -/

def SupportApiService.createExpertRequest (r : ExpertRequest) : FetchEff RespBody RespBody :=
  .fetch { url := apiBase ++ "/support/expert-request", httpMethod := "POST",
           contentTypeJson := true, body := some (.jsonOf r.toJson) }
    (fun f => .done (handleRespErrData "Failed to create expert request" f))

def SupportApiService.createComplaint (c : Complaint) : FetchEff RespBody RespBody :=
  .fetch { url := apiBase ++ "/support/complaint", httpMethod := "POST",
           contentTypeJson := true, body := some (.jsonOf c.toJson) }
    (fun f => .done (handleRespErrData "Failed to create complaint" f))

/-- URLSearchParams query of `trackComplaint` (percent-encoding not modelled). -/
def trackComplaintQuery (id email : Option String) : String :=
  String.intercalate "&"
    ((match id with | none => [] | some i => ["id=" ++ i])
      ++ (match email with | none => [] | some e => ["email=" ++ e]))

def SupportApiService.trackComplaint (id email : Option String) : FetchEff RespBody RespBody :=
  .fetch { url := apiBase ++ "/support/track-complaint?" ++ trackComplaintQuery id email,
           httpMethod := "GET", contentTypeJson := true, body := none }
    (fun f => .done (handleRespErrData "Failed to track complaint" f))

def SupportApiService.subscribeNewsletter (s : Subscription) : FetchEff RespBody RespBody :=
  .fetch { url := apiBase ++ "/support/subscribe", httpMethod := "POST",
           contentTypeJson := true, body := some (.jsonOf s.toJson) }
    (fun f => .done (handleRespErrData "Failed to subscribe" f))

/-- The error return of getDailyTips also carries `tips: []`; extra payload
fields are outside `RespBody`. -/
def SupportApiService.getDailyTips : FetchEff RespBody RespBody :=
  .fetch { url := apiBase ++ "/support/daily-tips", httpMethod := "GET",
           contentTypeJson := true, body := none }
    (fun f => .done (handleRespErrData "Failed to fetch daily tips" f))

/-! ## DeepfakeApiService (src/src/services/deepfakeApi.ts) -/

/-- The private request helper: merges `Content-Type: application/json` into
the headers of every request it sends. -/
def DeepfakeApiService.makeRequest (endpoint httpMethod : String) (body : Option ReqBody) :
    FetchEff RespBody RespBody :=
  .fetch { url := apiBase ++ endpoint, httpMethod := httpMethod,
           contentTypeJson := true, body := body }
    (fun f => .done (handleResp "Unknown error occurred" f))

def DeepfakeApiService.healthCheck : FetchEff RespBody RespBody :=
  DeepfakeApiService.makeRequest "/health" "GET" none

/-- predictVideo bypasses makeRequest: it posts a `FormData` with the file and
sets no headers at all, so no JSON content type is attached. -/
def DeepfakeApiService.predictVideo (file : JsFile) : FetchEff RespBody RespBody :=
  .fetch { url := apiBase ++ "/predict", httpMethod := "POST",
           contentTypeJson := false, body := some (.formData file.name) }
    (fun f => .done (handleResp "Prediction failed" f))

def DeepfakeApiService.trainModel (datasetPath : String) (epochs : Int) :
    FetchEff RespBody RespBody :=
  DeepfakeApiService.makeRequest "/train" "POST"
    (some (.jsonOf (.obj [("dataset_path", .str datasetPath), ("epochs", .num epochs)])))

def DeepfakeApiService.loadModel (modelPath : String) : FetchEff RespBody RespBody :=
  DeepfakeApiService.makeRequest "/load-model" "POST"
    (some (.jsonOf (.obj [("model_path", .str modelPath)])))

def DeepfakeApiService.getModelInfo : FetchEff RespBody RespBody :=
  DeepfakeApiService.makeRequest "/model-info" "GET" none

def DeepfakeApiService.evaluateModel (datasetPath : String) : FetchEff RespBody RespBody :=
  DeepfakeApiService.makeRequest "/evaluate" "POST"
    (some (.jsonOf (.obj [("dataset_path", .str datasetPath)])))

/-! ## AnalysesApiService (src/src/services/analysesApi.ts) -/

def AnalysesApiService.createAnalysis (data : CreateAnalysisRequest) :
    FetchEff RespBody RespBody :=
  .fetch { url := apiBase ++ "/analyses", httpMethod := "POST",
           contentTypeJson := true, body := some (.jsonOf data.toJson) }
    (fun f => .done (handleRespErrData "Failed to record analysis" f))

/-! ## ReportsApiService and HistoryApiService (src/src/services/reportsApi.ts) -/

def ReportsApiService.getUserReports (userId : String) : FetchEff RespBody RespBody :=
  .fetch { url := apiBase ++ "/reports/" ++ userId, httpMethod := "GET",
           contentTypeJson := true, body := none }
    (fun f => .done (handleResp "Failed to fetch reports" f))

def ReportsApiService.getAllReports (userId : String) : FetchEff RespBody RespBody :=
  .fetch { url := apiBase ++ "/reports?user_id=" ++ userId, httpMethod := "GET",
           contentTypeJson := true, body := none }
    (fun f => .done (handleResp "Failed to fetch reports" f))

def ReportsApiService.createReport (data : CreateReportRequest) : FetchEff RespBody RespBody :=
  .fetch { url := apiBase ++ "/reports", httpMethod := "POST",
           contentTypeJson := true, body := some (.jsonOf data.toJson) }
    (fun f => .done (handleRespErrData "Failed to save report" f))

def HistoryApiService.getHistory (userId : String) : FetchEff RespBody RespBody :=
  .fetch { url := apiBase ++ "/history/" ++ userId, httpMethod := "GET",
           contentTypeJson := true, body := none }
    (fun f => .done (handleResp "Failed to fetch history" f))

def HistoryApiService.createHistory (data : CreateHistoryRequest) : FetchEff RespBody RespBody :=
  .fetch { url := apiBase ++ "/history", httpMethod := "POST",
           contentTypeJson := true, body := some (.jsonOf data.toJson) }
    (fun f => .done (handleRespErrData "Failed to record history" f))

/-! ## BlogsApiService and ForumApiService (src/src/services/blogsApi.ts) -/

/-- The error return of getAllBlogs also carries `blogs: []` (not modelled). -/
def BlogsApiService.getAllBlogs : FetchEff RespBody RespBody :=
  .fetch { url := apiBase ++ "/blogs", httpMethod := "GET",
           contentTypeJson := true, body := none }
    (fun f => .done (handleRespErrData "Failed to fetch blogs" f))

def BlogsApiService.getBlogById (blogId : String) : FetchEff RespBody RespBody :=
  .fetch { url := apiBase ++ "/blogs/" ++ blogId, httpMethod := "GET",
           contentTypeJson := true, body := none }
    (fun f => .done (handleRespErrData "Failed to fetch blog" f))

def ForumApiService.makeRequest (endpoint httpMethod : String) (body : Option ReqBody) :
    FetchEff RespBody RespBody :=
  .fetch { url := apiBase ++ endpoint, httpMethod := httpMethod,
           contentTypeJson := true, body := body }
    (fun f => .done (handleResp "Unknown error occurred" f))

/-- Query string of getPosts (URLSearchParams; percent-encoding not modelled). -/
def forumPostsQuery (search topic : Option String) : String :=
  let qs := String.intercalate "&"
    ((match search with | none => [] | some s => ["search=" ++ s])
      ++ (match topic with | none => [] | some t => ["topic=" ++ t]))
  if qs.isEmpty then "" else "?" ++ qs

/-- getPosts has its own try/catch; on a non-ok response it awaits
`response.text()` (logging it) before throwing the plain HTTP error, so a
rejection of that text read reaches the catch block.  Its error return also
carries `posts: []` (not modelled). -/
def ForumApiService.getPosts (search topic : Option String) : FetchEff RespBody RespBody :=
  .fetch { url := apiBase ++ "/forum/posts" ++ forumPostsQuery search topic,
           httpMethod := "GET", contentTypeJson := true, body := none }
    (fun f => .done
      (handleRespTextLog
        "Failed to connect to server. Please ensure the backend is running." f))

def ForumApiService.createPost (user_id topic content : String) : FetchEff RespBody RespBody :=
  ForumApiService.makeRequest "/forum/posts" "POST"
    (some (.jsonOf (.obj [("user_id", .str user_id), ("topic", .str topic),
      ("content", .str content)])))

def ForumApiService.likePost (post_id : String) : FetchEff RespBody RespBody :=
  ForumApiService.makeRequest ("/forum/posts/" ++ post_id ++ "/like") "PUT" none

def ForumApiService.deletePost (post_id user_id : String) : FetchEff RespBody RespBody :=
  ForumApiService.makeRequest ("/forum/posts/" ++ post_id) "DELETE"
    (some (.jsonOf (.obj [("user_id", .str user_id)])))

def ForumApiService.getComments (post_id : String) : FetchEff RespBody RespBody :=
  ForumApiService.makeRequest ("/forum/posts/" ++ post_id ++ "/comments") "GET" none

def ForumApiService.createComment (post_id user_id content : String) :
    FetchEff RespBody RespBody :=
  ForumApiService.makeRequest ("/forum/posts/" ++ post_id ++ "/comments") "POST"
    (some (.jsonOf (.obj [("user_id", .str user_id), ("content", .str content)])))

def ForumApiService.deleteComment (comment_id user_id : String) : FetchEff RespBody RespBody :=
  ForumApiService.makeRequest ("/forum/comments/" ++ comment_id) "DELETE"
    (some (.jsonOf (.obj [("user_id", .str user_id)])))

/-! ## ProfileApiService (src/unnamed/part_000) -/

def ProfileApiService.getProfile (userId : String) : FetchEff RespBody RespBody :=
  .fetch { url := apiBase ++ "/profile/" ++ userId, httpMethod := "GET",
           contentTypeJson := true, body := none }
    (fun f => .done (handleRespErrData "Failed to fetch profile" f))

def ProfileApiService.updateProfile (userId : String) (data : UpdateProfileData) :
    FetchEff RespBody RespBody :=
  .fetch { url := apiBase ++ "/profile/" ++ userId, httpMethod := "PUT",
           contentTypeJson := true, body := some (.jsonOf data.toJson) }
    (fun f => .done (handleRespErrData "Failed to update profile" f))

/-! ## DashboardApiService (src/unnamed/part_001) -/

/-- getDashboard repackages the parsed body on the ok path (here only its
`status` and `message` fields are in scope; the data payload is outside
`RespBody`). -/
def DashboardApiService.getDashboard (userId : String) : FetchEff RespBody RespBody :=
  .fetch { url := apiBase ++ "/dashboard/" ++ userId, httpMethod := "GET",
           contentTypeJson := true, body := none }
    (fun f => .done (match f with
      | .reject e => ⟨"error", some (e.messageOr "Failed to fetch dashboard data")⟩
      | .resolve ok st body _ =>
        if ok then
          match body with
          | .ok d => ⟨d.status, d.message⟩
          | .error e => ⟨"error", some (e.messageOr "Failed to fetch dashboard data")⟩
        else ⟨"error", some (httpErrorMsg st)⟩))

def DashboardApiService.getNotifications (userId : String) : FetchEff RespBody RespBody :=
  .fetch { url := apiBase ++ "/notifications/" ++ userId, httpMethod := "GET",
           contentTypeJson := true, body := none }
    (fun f => .done (handleResp "Failed to fetch notifications" f))

def DashboardApiService.markNotificationRead (notificationId userId : String) :
    FetchEff RespBody RespBody :=
  .fetch { url := apiBase ++ "/notifications/" ++ notificationId, httpMethod := "PATCH",
           contentTypeJson := true,
           body := some (.jsonOf (.obj [("user_id", .str userId)])) }
    (fun f => .done (handleRespErrData "Failed to update notification" f))

/-! ## The frontend API surface: one constructor per public service method -/

/-- A call to one of the methods of the ten frontend API service classes,
with the arguments of the call. -/
inductive MethodCall where
  | adminResetUserData (userId : String)
  | adminGetAllUsers (adminId : String)
  | adminGetUserDetails (userId adminId : String)
  | adminResetUserDataSingle (userId adminId : String)
  | adminDeleteUser (userId adminId : String)
  | adminGetAllReports (adminId : String) (filters : ReportFilters)
  | adminDeleteReport (reportId adminId : String)
  | supportCreateExpertRequest (r : ExpertRequest)
  | supportCreateComplaint (c : Complaint)
  | supportTrackComplaint (id email : Option String)
  | supportSubscribeNewsletter (s : Subscription)
  | supportGetDailyTips
  | deepfakeHealthCheck
  | deepfakePredictVideo (file : JsFile)
  | deepfakeTrainModel (datasetPath : String) (epochs : Int)
  | deepfakeLoadModel (modelPath : String)
  | deepfakeGetModelInfo
  | deepfakeEvaluateModel (datasetPath : String)
  | analysesCreateAnalysis (data : CreateAnalysisRequest)
  | reportsGetUserReports (userId : String)
  | reportsGetAllReports (userId : String)
  | reportsCreateReport (data : CreateReportRequest)
  | historyGetHistory (userId : String)
  | historyCreateHistory (data : CreateHistoryRequest)
  | blogsGetAllBlogs
  | blogsGetBlogById (blogId : String)
  | forumGetPosts (search topic : Option String)
  | forumCreatePost (user_id topic content : String)
  | forumLikePost (post_id : String)
  | forumDeletePost (post_id user_id : String)
  | forumGetComments (post_id : String)
  | forumCreateComment (post_id user_id content : String)
  | forumDeleteComment (comment_id user_id : String)
  | profileGetProfile (userId : String)
  | profileUpdateProfile (userId : String) (data : UpdateProfileData)
  | dashboardGetDashboard (userId : String)
  | dashboardGetNotifications (userId : String)
  | dashboardMarkNotificationRead (notificationId userId : String)

/-- Dispatch a call to the embedded service method. -/
def MethodCall.toProgram : MethodCall → FetchEff RespBody RespBody
  | .adminResetUserData u => AdminApiService.resetUserData u
  | .adminGetAllUsers a => AdminApiService.getAllUsers a
  | .adminGetUserDetails u a => AdminApiService.getUserDetails u a
  | .adminResetUserDataSingle u a => AdminApiService.resetUserDataSingle u a
  | .adminDeleteUser u a => AdminApiService.deleteUser u a
  | .adminGetAllReports a fs => AdminApiService.getAllReports a fs
  | .adminDeleteReport r a => AdminApiService.deleteReport r a
  | .supportCreateExpertRequest r => SupportApiService.createExpertRequest r
  | .supportCreateComplaint c => SupportApiService.createComplaint c
  | .supportTrackComplaint i e => SupportApiService.trackComplaint i e
  | .supportSubscribeNewsletter s => SupportApiService.subscribeNewsletter s
  | .supportGetDailyTips => SupportApiService.getDailyTips
  | .deepfakeHealthCheck => DeepfakeApiService.healthCheck
  | .deepfakePredictVideo f => DeepfakeApiService.predictVideo f
  | .deepfakeTrainModel p e => DeepfakeApiService.trainModel p e
  | .deepfakeLoadModel p => DeepfakeApiService.loadModel p
  | .deepfakeGetModelInfo => DeepfakeApiService.getModelInfo
  | .deepfakeEvaluateModel p => DeepfakeApiService.evaluateModel p
  | .analysesCreateAnalysis d => AnalysesApiService.createAnalysis d
  | .reportsGetUserReports u => ReportsApiService.getUserReports u
  | .reportsGetAllReports u => ReportsApiService.getAllReports u
  | .reportsCreateReport d => ReportsApiService.createReport d
  | .historyGetHistory u => HistoryApiService.getHistory u
  | .historyCreateHistory d => HistoryApiService.createHistory d
  | .blogsGetAllBlogs => BlogsApiService.getAllBlogs
  | .blogsGetBlogById b => BlogsApiService.getBlogById b
  | .forumGetPosts s t => ForumApiService.getPosts s t
  | .forumCreatePost u t c => ForumApiService.createPost u t c
  | .forumLikePost p => ForumApiService.likePost p
  | .forumDeletePost p u => ForumApiService.deletePost p u
  | .forumGetComments p => ForumApiService.getComments p
  | .forumCreateComment p u c => ForumApiService.createComment p u c
  | .forumDeleteComment c u => ForumApiService.deleteComment c u
  | .profileGetProfile u => ProfileApiService.getProfile u
  | .profileUpdateProfile u d => ProfileApiService.updateProfile u d
  | .dashboardGetDashboard u => DashboardApiService.getDashboard u
  | .dashboardGetNotifications u => DashboardApiService.getNotifications u
  | .dashboardMarkNotificationRead n u => DashboardApiService.markNotificationRead n u

/-- Marks the one method that does not send a typed JSON request. -/
def MethodCall.usesFormData : MethodCall → Bool
  | .deepfakePredictVideo _ => true
  | _ => false

/-- The fetch outcome of the claim hypothesis: the promise rejects, or
resolves with a non-ok HTTP response. -/
def FetchOutcome.failed : FetchOutcome β → Prop
  | .reject _ => True
  | .resolve ok _ _ _ => ok = false

/-- A request body that is a JSON serialization of a typed object (or absent). -/
def jsonBodyOnly : Option ReqBody → Prop
  | none => True
  | some (.jsonOf _) => True
  | some (.formData _) => False

/-! ## AuthContext (src/unnamed/part_002) -/

/-- User object of the auth context. -/
structure AuthUser where
  id : String
  email : String
  role : String
  name : Option String
deriving DecidableEq

/-- The AuthSession interface stored under the `authSession` key. -/
structure AuthSession where
  loggedIn : Bool
  user : Option AuthUser
  token : String
  createdAt : Int
deriving DecidableEq

/-- What `JSON.parse` turns a stored `authSession` string into: the parse
throws, or yields a value without the session fields (any field access on it
is undefined, hence falsy), or yields a session object. -/
inductive StoredVal where
  | malformed
  | nonSession
  | session (s : AuthSession)
deriving DecidableEq

/-- The browser localStorage, as an association list. -/
abbrev Store := List (String × StoredVal)

def getItem (key : String) : Store → Option StoredVal
  | [] => none
  | (k, v) :: rest => if k = key then some v else getItem key rest

def removeItem (key : String) : Store → Store
  | [] => []
  | (k, v) :: rest =>
    if k = key then removeItem key rest else (k, v) :: removeItem key rest

def setItem (key : String) (v : StoredVal) (st : Store) : Store :=
  (key, v) :: removeItem key st

/-- Parsed body of the login response. -/
structure LoginRespBody where
  status : String
  user : Option AuthUser
  token : Option String
  message : Option String

/-- Truthiness of the `data.token` field of the login response. -/
def truthyToken : Option String → Bool
  | none => false
  | some t => !t.isEmpty

/-- AuthProvider.login: posts the credentials, parses the JSON body without
checking `response.ok`, and on `status === 'success' && data.user && data.token`
stores the session and sets the user.  Returns (returned boolean, store after,
user state after). -/
def AuthProvider.login (now : Int) (f : FetchOutcome LoginRespBody)
    (store : Store) (user0 : Option AuthUser) : Bool × Store × Option AuthUser :=
  match f with
  | .reject _ => (false, store, user0)
  | .resolve _ _ body _ =>
    match body with
    | .error _ => (false, store, user0)
    | .ok d =>
      if d.status = "success" && d.user.isSome && truthyToken d.token then
        (true,
          setItem "authSession"
            (.session { loggedIn := true, user := d.user, token := d.token.getD "",
                        createdAt := now }) store,
          d.user)
      else (false, store, user0)

/-- AuthProvider.logout removes the stored session and clears the user. -/
def AuthProvider.logout (store : Store) (_user0 : Option AuthUser) :
    Store × Option AuthUser :=
  (removeItem "authSession" store, none)

/-- Truthiness of `session?.loggedIn && session?.user && session?.token`. -/
def sessionTruthy (s : AuthSession) : Bool :=
  s.loggedIn && s.user.isSome && !s.token.isEmpty

/-- AuthProvider.checkAuth: reads and parses the stored session; on a
well-formed session it verifies the token with the backend (`verify` is the
outcome of that fetch), keeping the stored user when the verify request itself
rejects.  Returns (store after, user state after). -/
def AuthProvider.checkAuth (store : Store) (user0 : Option AuthUser)
    (verify : FetchOutcome RespBody) : Store × Option AuthUser :=
  match getItem "authSession" store with
  | none => (store, user0)
  | some .malformed => (removeItem "authSession" store, none)
  | some .nonSession => (removeItem "authSession" store, none)
  | some (.session s) =>
    if sessionTruthy s then
      match verify with
      | .reject _ => (store, s.user)
      | .resolve ok _ body _ =>
        if ok then
          match body with
          | .ok d => if d.status = "success" then (store, s.user)
                     else (removeItem "authSession" store, none)
          | .error _ => (store, s.user)
        else (removeItem "authSession" store, none)
    else (removeItem "authSession" store, none)

/-- The stored value under `authSession` is a session the checkAuth guard
accepts: loggedIn, a non-null user and a non-empty token. -/
def wellFormedSession : Option StoredVal → Prop
  | some (.session s) => sessionTruthy s = true
  | _ => False

/-! ## Timers (setInterval / clearInterval) -/

/-- The polling callbacks the three components install. -/
inductive TimerAction where
  | fetchNotifications
  | fetchDashboardData
  | fetchPosts
deriving DecidableEq

structure Timer where
  id : Nat
  periodMs : Nat
  action : TimerAction
deriving DecidableEq

abbrev TimerState := List Timer

/-- A timer id not yet in use. -/
def freshTimerId (st : TimerState) : Nat :=
  (st.map Timer.id).foldr max 0 + 1

def jsSetInterval (a : TimerAction) (periodMs : Nat) (st : TimerState) :
    Nat × TimerState :=
  (freshTimerId st, ⟨freshTimerId st, periodMs, a⟩ :: st)

def jsClearInterval (i : Nat) (st : TimerState) : TimerState :=
  st.filter (fun t => t.id ≠ i)

/-- AppHeader notification-polling effect (part_004 lines 23-33): when a user
id is present and authenticated, fetch and install a 30000 ms interval for
fetchNotifications, remembering its id for cleanup. -/
def AppHeader.notificationsEffect (userId : Option String) (isAuthenticated : Bool)
    (st : TimerState) : Option Nat × TimerState :=
  match userId with
  | some uid =>
    if !uid.isEmpty && isAuthenticated then
      let r := jsSetInterval .fetchNotifications 30000 st
      (some r.1, r.2)
    else (none, st)
  | none => (none, st)

/-- Cleanup returned by the AppHeader effect: clearInterval on the saved id. -/
def AppHeader.notificationsCleanup (i : Nat) (st : TimerState) : TimerState :=
  jsClearInterval i st

/-- Dashboard polling effect (part_005 lines 63-73): when a user id is
present, fetch and install a 30000 ms interval for fetchDashboardData. -/
def Dashboard.pollEffect (userId : Option String) (st : TimerState) :
    Option Nat × TimerState :=
  match userId with
  | some uid =>
    if !uid.isEmpty then
      let r := jsSetInterval .fetchDashboardData 30000 st
      (some r.1, r.2)
    else (none, st)
  | none => (none, st)

def Dashboard.pollCleanup (i : Nat) (st : TimerState) : TimerState :=
  jsClearInterval i st

/-- Forum polling effect (part_011 lines 94-100): unconditionally fetch and
install a 10000 ms interval for fetchPosts. -/
def Forum.pollEffect (st : TimerState) : Nat × TimerState :=
  jsSetInterval .fetchPosts 10000 st

def Forum.pollCleanup (i : Nat) (st : TimerState) : TimerState :=
  jsClearInterval i st

/-! ## AppHeader notifications (src/unnamed/part_004) -/

/-- Notification interface (src/unnamed/part_001). -/
structure Notification where
  id : String
  title : String
  message : String
  type : String
  timestamp : String
  is_read : Bool
deriving DecidableEq

/-- AppHeader.handleMarkAsRead: guarded by `user?.id`; issues the PATCH (whose
response is not inspected, and which never throws, so the local update always
runs), then maps is_read := true over the entries whose id matches and sets
`unreadCount` to `Math.max(0, prev - 1)`.  Returns the notification list and
unread count after the update. -/
def AppHeader.handleMarkAsRead (userId : Option String) (notificationId : String)
    (notifications : List Notification) (unreadCount : Int) :
    List Notification × Int :=
  match userId with
  | none => (notifications, unreadCount)
  | some uid =>
    if uid.isEmpty then (notifications, unreadCount)
    else
      (notifications.map (fun n =>
        if n.id = notificationId then { n with is_read := true } else n),
        max 0 (unreadCount - 1))

/-! ## Profile page (src/src/pages/Profile.tsx) -/

def isLowerAlpha (c : Char) : Bool := 'a' ≤ c && c ≤ 'z'
def isUpperAlpha (c : Char) : Bool := 'A' ≤ c && c ≤ 'Z'
def isDigitChar (c : Char) : Bool := '0' ≤ c && c ≤ '9'

/-- Profile.validatePassword: length and the three character-class regex
tests, in order. -/
def Profile.validatePassword (password : String) : Option String :=
  if password.length < 8 then
    some "Password must be at least 8 characters long"
  else if !(password.toList.any isLowerAlpha) then
    some "Password must contain at least one lowercase letter"
  else if !(password.toList.any isUpperAlpha) then
    some "Password must contain at least one uppercase letter"
  else if !(password.toList.any isDigitChar) then
    some "Password must contain at least one number"
  else none

/-- Profile page state that handleSave reads. -/
structure ProfileData where
  name : String
deriving DecidableEq

/-- Profile.handleSave, up to the call of ProfileApiService.updateProfile:
returns the update payload passed to updateProfile, or `none` when a guard
makes the function return before calling it. -/
def Profile.handleSave (userId : Option String) (profile : Option ProfileData)
    (name currentPassword newPassword confirmPassword : String) :
    Option UpdateProfileData :=
  match userId, profile with
  | some uid, some prof =>
    if uid.isEmpty then none
    else if !newPassword.isEmpty || !confirmPassword.isEmpty || !currentPassword.isEmpty then
      if currentPassword.isEmpty then none
      else if newPassword.isEmpty then none
      else if newPassword ≠ confirmPassword then none
      else if (Profile.validatePassword newPassword).isSome then none
      else some
        { name := if name ≠ prof.name then some name else none,
          password := if !newPassword.isEmpty && !currentPassword.isEmpty
                      then some newPassword else none,
          current_password := if !newPassword.isEmpty && !currentPassword.isEmpty
                              then some currentPassword else none }
    else some
      { name := if name ≠ prof.name then some name else none,
        password := none, current_password := none }
  | _, _ => none

/-! ## Admin reports (src/src/services/adminApi.ts, src/unnamed/part_005) -/

/-- Report row of the admin reports API. -/
structure Report where
  id : String
  user_id : String
  user_email : String
  user_name : String
  file_name : String
  prediction : String
  confidence : Rat
  frames_analyzed : Int
  report_url : String
  model_version : String
  created_at : String
deriving DecidableEq

/-- Modelled from the spec: the backend handler of
`DELETE /api/admin/reports/:id` is not under src (only its client is); per the
spec the backend "performs CRUD against a single relational database" and
"a deleted report no longer appears in listings", so the delete removes the
row with that id and reports success. -/
def Backend.deleteReport (reportId : String) (db : List Report) :
    RespBody × List Report :=
  (⟨"success", none⟩, db.filter (fun r => r.id ≠ reportId))

/-- Modelled from the spec: the backend handler of `GET /api/admin/reports`
is not under src; per the spec it is a CRUD listing of the reports table, with
the optional result/user/date filters selecting a subset of the rows (the
filter predicate abstracts those query parameters). -/
def Backend.listReports (keep : Report → Bool) (db : List Report) : List Report :=
  db.filter keep

/-- AdminContent.handleDeleteReport followed by the fetchReports refetch:
guarded by `user?.id` and a selected report; issues the delete and, when it
reports success, refetches the listing (which becomes the new `reports`
state).  Returns the refetched listing (`none` when no refetch happened) and
the backend state after. -/
def AdminContent.handleDeleteReport (userId : Option String)
    (selectedReport : Option Report) (keep : Report → Bool) (db : List Report) :
    Option (List Report) × List Report :=
  match userId, selectedReport with
  | some uid, some sel =>
    if uid.isEmpty then (none, db)
    else
      let r := Backend.deleteReport sel.id db
      if r.1.status = "success" then (some (Backend.listReports keep r.2), r.2)
      else (none, r.2)
  | _, _ => (none, db)

/-- Array.prototype.join. -/
def jsJoin (sep : String) : List String → String
  | [] => ""
  | [x] => x
  | x :: xs => x ++ sep ++ jsJoin sep xs

/-- The fixed CSV header cells of exportToCSV. -/
def csvHeaders : List String :=
  ["Report ID", "User Email", "File Name", "Confidence %", "Result", "Date"]

/-- The cells of one CSV row; `fmt2` stands for the float rendering
`(r.confidence * 100).toFixed(2)`. -/
def csvRow (fmt2 : Rat → String) (r : Report) : List String :=
  [r.id, r.user_email, r.file_name, fmt2 r.confidence, r.prediction, r.created_at]

/-- AdminContent.exportToCSV: returns the CSV text handed to the Blob, or
`none` when the empty-list guard returns early. -/
def AdminContent.exportToCSV (fmt2 : Rat → String) (filteredReports : List Report) :
    Option String :=
  if filteredReports.length = 0 then none
  else some (jsJoin "\n"
    (jsJoin "," csvHeaders ::
      filteredReports.map (fun r =>
        jsJoin "," ((csvRow fmt2 r).map (fun cell => "\"" ++ cell ++ "\"")))))

/-- The cells of one PDF table row; `fmt0` stands for
`(report.confidence * 100).toFixed(0)`; `split(' ')[0]` keeps the date part of
`created_at`. -/
def pdfRow (fmt0 : Rat → String) (r : Report) : List String :=
  [r.id.take 8, r.user_email.take 20, r.file_name.take 25, fmt0 r.confidence,
    r.prediction, ((r.created_at.splitOn " ").headD "")]

/-- The parts of the generated PDF document the claim is about: the table rows
drawn by the forEach over `filteredReports.slice(0, 25)`, and the text of the
final note page added when more than 25 reports exist. -/
structure PdfExport where
  tableRows : List (List String)
  notePage : Option String

/-- AdminContent.exportToPDF, reduced to the table contents and the note page
(header/statistics text and the y-position page-break bookkeeping do not
affect which rows are rendered). -/
def AdminContent.exportToPDF (fmt0 : Rat → String) (filteredReports : List Report) :
    Option PdfExport :=
  if filteredReports.length = 0 then none
  else some
    { tableRows := (filteredReports.take 25).map (pdfRow fmt0),
      notePage :=
        if filteredReports.length > 25 then
          some ("Note: Showing first 25 of " ++ toString filteredReports.length
            ++ " reports")
        else none }

/-! ## Upload validation (src/unnamed/part_010, src/unnamed/part_005) -/

/-- The accepted video MIME types (same list in UploadPage.validateFile and
Dashboard.handleFileSelect). -/
def allowedTypes : List String :=
  ["video/mp4", "video/avi", "video/mov", "video/webm", "video/quicktime"]

/-- The 500MB size limit. -/
def maxFileSize : Nat := 500 * 1024 * 1024

/-- UploadPage.validateFile; `fmtMB` stands for the float rendering
`(file.size / 1024 / 1024).toFixed(1)` in the size error message. -/
def UploadPage.validateFile (fmtMB : Nat → String) (file : JsFile) : Option String :=
  if !(allowedTypes.contains file.type) then
    some ("File type " ++ file.type
      ++ " is not supported. Please use MP4, AVI, MOV, or WebM video files.")
  else if file.size > maxFileSize then
    some ("File size (" ++ fmtMB file.size ++ "MB) exceeds the 500MB limit.")
  else none

/-- Dashboard.handleFileSelect, up to the state update: `some file` means the
file was stored via setSelectedFile and startUpload was invoked on it; `none`
means an early return on an invalid type or size. -/
def Dashboard.handleFileSelect (file : JsFile) : Option JsFile :=
  if !(allowedTypes.contains file.type) then none
  else if file.size > maxFileSize then none
  else some file

/-! ## Lemmas about the shared error handling -/

theorem append_ne_empty_left (a b : String) (h : a ≠ "") : a ++ b ≠ "" := by
  intro hc
  apply h
  have : (a ++ b).data = [] := by rw [hc]
  rw [String.data_append] at this
  have ha : a.data = [] := (List.append_eq_nil.mp this).1
  exact String.ext ha

theorem httpErrorMsg_ne_empty (st : Nat) : httpErrorMsg st ≠ "" := by
  unfold httpErrorMsg
  exact append_ne_empty_left _ _ (by decide)

/-- The outcomes at which an empty error message can arise: the fetch itself
rejected with an `Error` whose message is empty, or the response resolved
non-ok and the awaited `response.text()` read rejected with an `Error` whose
message is empty (only the non-ok branch of `ForumApiService.getPosts`
performs that read). -/
def emptyMessageSource : FetchOutcome RespBody → Prop
  | .reject (.error m) => m = ""
  | .resolve ok _ _ (.error (.error m)) => ok = false ∧ m = ""
  | _ => False

/-- The conclusion of the amended error-uniformity claim at one outcome:
status is the literal `'error'`, a message is present, and the message can be
empty only when an awaited promise of the call rejected with an `Error` whose
message is empty. -/
def errorResultOk (r : RespBody) (o : FetchOutcome RespBody) : Prop :=
  r.status = "error" ∧ ∃ m, r.message = some m ∧ (m = "" → emptyMessageSource o)

theorem handleResp_failed (fb : String) (hfb : fb ≠ "") (f : FetchOutcome RespBody)
    (hf : f.failed) : errorResultOk (handleResp fb f) f := by
  cases f with
  | reject e =>
    cases e with
    | error m =>
      exact ⟨rfl, m, rfl, fun h => h⟩
    | nonError =>
      exact ⟨rfl, fb, rfl, fun h => absurd h hfb⟩
  | resolve ok st body textBody =>
    have hok : ok = false := hf
    subst hok
    exact ⟨rfl, httpErrorMsg st, rfl, fun h => absurd h (httpErrorMsg_ne_empty st)⟩

theorem handleRespErrData_failed (fb : String) (hfb : fb ≠ "")
    (f : FetchOutcome RespBody) (hf : f.failed) :
    errorResultOk (handleRespErrData fb f) f := by
  cases f with
  | reject e =>
    cases e with
    | error m =>
      exact ⟨rfl, m, rfl, fun h => h⟩
    | nonError =>
      exact ⟨rfl, fb, rfl, fun h => absurd h hfb⟩
  | resolve ok st body textBody =>
    have hok : ok = false := hf
    subst hok
    refine ⟨rfl, ?_⟩
    cases body with
    | error e =>
      refine ⟨httpErrorMsg st, ?_, fun h => absurd h (httpErrorMsg_ne_empty st)⟩
      simp [handleRespErrData, truthyMsg]
    | ok b =>
      cases hm : b.message with
      | none =>
        refine ⟨httpErrorMsg st, ?_, fun h => absurd h (httpErrorMsg_ne_empty st)⟩
        simp [handleRespErrData, truthyMsg, hm]
      | some s =>
        by_cases he : s.isEmpty = true
        · refine ⟨httpErrorMsg st, ?_, fun h => absurd h (httpErrorMsg_ne_empty st)⟩
          simp [handleRespErrData, truthyMsg, hm, he]
        · have he' : s.isEmpty = false := by
            cases hb : s.isEmpty with
            | true => exact absurd hb he
            | false => rfl
          refine ⟨s, ?_, fun h => ?_⟩
          · simp [handleRespErrData, truthyMsg, hm, he']
          · exact absurd (by rw [h]; rfl) he

theorem handleRespTextLog_failed (fb : String) (hfb : fb ≠ "")
    (f : FetchOutcome RespBody) (hf : f.failed) :
    errorResultOk (handleRespTextLog fb f) f := by
  cases f with
  | reject e =>
    cases e with
    | error m =>
      exact ⟨rfl, m, rfl, fun h => h⟩
    | nonError =>
      exact ⟨rfl, fb, rfl, fun h => absurd h hfb⟩
  | resolve ok st body textBody =>
    have hok : ok = false := hf
    subst hok
    cases textBody with
    | ok t =>
      exact ⟨rfl, httpErrorMsg st, rfl, fun h => absurd h (httpErrorMsg_ne_empty st)⟩
    | error e =>
      cases e with
      | error m =>
        exact ⟨rfl, m, rfl, fun h => ⟨rfl, h⟩⟩
      | nonError =>
        exact ⟨rfl, fb, rfl, fun h => absurd h hfb⟩

/-! ## Claim C1: uniform error handling of the API service methods -/

/-- C1 counterexample: when the underlying fetch of
AdminApiService.resetUserData rejects with an `Error` whose message is the
empty string, the method returns status `'error'` but its message is the
empty string, not a non-empty one: the catch block forwards `error.message`
verbatim. -/
theorem resetUserData_empty_message_counterexample :
    (MethodCall.adminResetUserData "u1").toProgram.run
        (fun _ => .reject (.error "")) = ⟨"error", some ""⟩ ∧
      ("" : String).isEmpty = true :=
  ⟨rfl, rfl⟩

/-- C1 (amended): for every method of every frontend API service class, if
the underlying fetch rejects or resolves with a non-ok HTTP response, the
method returns (never throws) an object whose status field is `'error'` and
whose message field is a string that is non-empty except when an awaited
promise of the call (the fetch itself, or, for ForumApiService.getPosts on a
non-ok response, the awaited `response.text()` read of its logging branch)
rejected with an `Error` whose own message is empty, in which case the
message is that empty string; and the method issues exactly one fetch per
call (no retry). -/
theorem apiService_failure_uniform (c : MethodCall)
    (oracle : Nat → FetchOutcome RespBody) (hf : (oracle 0).failed) :
    errorResultOk (c.toProgram.run oracle) (oracle 0) ∧
      c.toProgram.count oracle = 1 := by
  cases c <;>
    first
      | exact ⟨handleRespErrData_failed _ (by decide) _ hf, rfl⟩
      | exact ⟨handleResp_failed _ (by decide) _ hf, rfl⟩
      | exact ⟨handleRespTextLog_failed _ (by decide) _ hf, rfl⟩

theorem apiService_failure_uniform_witness :
    FetchOutcome.failed (β := RespBody)
        (.resolve false 500 (.error .nonError) (.ok "")) ∧
      (errorResultOk
          ((MethodCall.supportGetDailyTips).toProgram.run
            (fun _ => .resolve false 500 (.error .nonError) (.ok "")))
          (.resolve false 500 (.error .nonError) (.ok "")) ∧
        (MethodCall.supportGetDailyTips).toProgram.count
          (fun _ => .resolve false 500 (.error .nonError) (.ok "")) = 1) :=
  ⟨rfl, apiService_failure_uniform .supportGetDailyTips
    (fun _ => .resolve false 500 (.error .nonError) (.ok "")) rfl⟩

/-! ## Claim C2: typed JSON requests -/

/-- C2 counterexample: DeepfakeApiService.predictVideo issues a request whose
body is a multipart FormData (not a JSON serialization of a typed object) and
which does not carry the application/json content type. -/
theorem predictVideo_formData_counterexample :
    (MethodCall.deepfakePredictVideo ⟨"clip.mp4", "video/mp4", 1000⟩).toProgram.requests
        (fun _ => .reject .nonError) =
      [⟨apiBase ++ "/predict", "POST", false, some (.formData "clip.mp4")⟩] ∧
      ¬ jsonBodyOnly (some (.formData "clip.mp4")) :=
  ⟨rfl, fun h => h⟩

/-- C2 (amended): every frontend API service method except
DeepfakeApiService.predictVideo issues only requests that carry the
application/json content type and whose body, when present, is a JSON
serialization of a typed object; predictVideo instead posts a multipart
FormData with no explicit content type. -/
theorem apiService_requests_typed_json (c : MethodCall)
    (oracle : Nat → FetchOutcome RespBody) (hc : c.usesFormData = false) :
    ∀ req ∈ c.toProgram.requests oracle,
      req.contentTypeJson = true ∧ jsonBodyOnly req.body := by
  cases c <;>
    first
      | exact fun req hreq => by
          rcases List.mem_singleton.mp hreq with rfl
          exact ⟨rfl, trivial⟩
      | exact nomatch hc

theorem apiService_requests_typed_json_witness :
    MethodCall.usesFormData (.reportsGetUserReports "u1") = false ∧
      ∀ req ∈ (MethodCall.reportsGetUserReports "u1").toProgram.requests
          (fun _ => .reject .nonError),
        req.contentTypeJson = true ∧ jsonBodyOnly req.body :=
  ⟨rfl, apiService_requests_typed_json (.reportsGetUserReports "u1")
    (fun _ => .reject .nonError) rfl⟩

/-! ## Claim C3: localStorage-backed session -/

theorem getItem_setItem (key : String) (v : StoredVal) (st : Store) :
    getItem key (setItem key v st) = some v := by
  simp [getItem, setItem]

theorem getItem_removeItem (key : String) (st : Store) :
    getItem key (removeItem key st) = none := by
  induction st with
  | nil => rfl
  | cons p rest ih =>
    rcases p with ⟨k, v⟩
    by_cases h : k = key
    · simpa [removeItem, h] using ih
    · simpa [removeItem, getItem, h] using ih

/-- C3: a login call that receives status `'success'` together with a user
and a (non-empty) token stores a session object with loggedIn = true, the
user, the token and the creation time under the `authSession` key and returns
true, setting the current user; and every logout call removes the
`authSession` key from localStorage and makes the current user null. -/
theorem login_logout_session (now : Int) (ok : Bool) (httpStatus : Nat)
    (textRes : Except JsError String)
    (d : LoginRespBody) (store : Store) (user0 : Option AuthUser)
    (u : AuthUser) (t : String)
    (hs : d.status = "success") (hu : d.user = some u) (ht : d.token = some t)
    (htne : t.isEmpty = false) :
    (AuthProvider.login now (.resolve ok httpStatus (.ok d) textRes) store user0 =
        (true, setItem "authSession" (.session ⟨true, some u, t, now⟩) store, some u) ∧
      getItem "authSession"
          (AuthProvider.login now (.resolve ok httpStatus (.ok d) textRes)
            store user0).2.1 =
        some (.session ⟨true, some u, t, now⟩)) ∧
    ∀ (store2 : Store) (user2 : Option AuthUser),
      AuthProvider.logout store2 user2 = (removeItem "authSession" store2, none) ∧
      getItem "authSession" (AuthProvider.logout store2 user2).1 = none := by
  have hlogin : AuthProvider.login now (.resolve ok httpStatus (.ok d) textRes)
        store user0 =
      (true, setItem "authSession" (.session ⟨true, some u, t, now⟩) store, some u) := by
    simp [AuthProvider.login, hs, hu, ht, truthyToken, htne]
  refine ⟨⟨hlogin, ?_⟩, fun store2 user2 => ⟨rfl, getItem_removeItem _ _⟩⟩
  rw [hlogin]
  exact getItem_setItem _ _ _

theorem login_logout_session_witness :
    (⟨"success", some ⟨"1", "a@b.c", "user", none⟩, some "tok", none⟩ :
        LoginRespBody).status = "success" ∧
      (AuthProvider.login 5
          (.resolve true 200 (.ok ⟨"success", some ⟨"1", "a@b.c", "user", none⟩,
            some "tok", none⟩) (.ok "")) [] none =
        (true, setItem "authSession"
          (.session ⟨true, some ⟨"1", "a@b.c", "user", none⟩, "tok", 5⟩) [], 
          some ⟨"1", "a@b.c", "user", none⟩) ∧
      getItem "authSession"
          (AuthProvider.login 5
            (.resolve true 200 (.ok ⟨"success", some ⟨"1", "a@b.c", "user", none⟩,
              some "tok", none⟩) (.ok "")) [] none).2.1 =
        some (.session ⟨true, some ⟨"1", "a@b.c", "user", none⟩, "tok", 5⟩)) ∧
      ∀ (store2 : Store) (user2 : Option AuthUser),
        AuthProvider.logout store2 user2 = (removeItem "authSession" store2, none) ∧
        getItem "authSession" (AuthProvider.logout store2 user2).1 = none :=
  ⟨rfl, login_logout_session 5 true 200 (.ok "") _ [] none
    ⟨"1", "a@b.c", "user", none⟩ "tok" rfl rfl rfl rfl⟩

/-! ## Claim C10: checkAuth never authenticates from a malformed session -/

/-- C10: starting from the initial null user of the AuthProvider, after
checkAuth completes the user is non-null only if the stored `authSession`
value parsed to an object with loggedIn true, a non-null user and a non-empty
token; in every other case (key absent, unparsable JSON, or any of the three
fields missing or falsy) the `authSession` key is not in localStorage
afterwards and the user is null. -/
theorem checkAuth_malformed_session_invariant (store : Store)
    (verify : FetchOutcome RespBody) :
    ((AuthProvider.checkAuth store none verify).2.isSome = true →
        wellFormedSession (getItem "authSession" store)) ∧
      (¬ wellFormedSession (getItem "authSession" store) →
        getItem "authSession" (AuthProvider.checkAuth store none verify).1 = none ∧
          (AuthProvider.checkAuth store none verify).2 = none) := by
  rcases hg : getItem "authSession" store with _ | v
  · constructor
    · intro h
      simp [AuthProvider.checkAuth, hg] at h
    · intro _
      simp [AuthProvider.checkAuth, hg, hg]
  · cases v with
    | malformed =>
      constructor
      · intro h
        simp [AuthProvider.checkAuth, hg] at h
      · intro _
        simp [AuthProvider.checkAuth, hg, getItem_removeItem]
    | nonSession =>
      constructor
      · intro h
        simp [AuthProvider.checkAuth, hg] at h
      · intro _
        simp [AuthProvider.checkAuth, hg, getItem_removeItem]
    | session s =>
      by_cases htr : sessionTruthy s = true
      · constructor
        · intro _
          simpa [wellFormedSession, hg] using htr
        · intro hnw
          exact absurd (by simpa [wellFormedSession, hg] using htr) hnw
      · constructor
        · intro h
          simp [AuthProvider.checkAuth, hg, htr] at h
        · intro _
          simp [AuthProvider.checkAuth, hg, htr, getItem_removeItem]

theorem checkAuth_malformed_session_invariant_witness :
    ¬ wellFormedSession (getItem "authSession" [("authSession", StoredVal.malformed)]) ∧
      (getItem "authSession"
          (AuthProvider.checkAuth [("authSession", StoredVal.malformed)] none
            (.reject .nonError)).1 = none ∧
        (AuthProvider.checkAuth [("authSession", StoredVal.malformed)] none
          (.reject .nonError)).2 = none) :=
  ⟨fun h => by simp [wellFormedSession, getItem] at h,
    (checkAuth_malformed_session_invariant [("authSession", StoredVal.malformed)]
      (.reject .nonError)).2
      (fun h => by simp [wellFormedSession, getItem] at h)⟩

/-! ## Claim C4: a deleted report no longer appears in listings -/

/-- C4 (spec-modelled backend): after AdminApiService.deleteReport for a
report id returns status success and the listing is refetched the way
AdminContent.handleDeleteReport does via fetchReports, no report with that id
is contained in the resulting reports list. -/
theorem deleted_report_not_in_listing (userId : String) (sel : Report)
    (keep : Report → Bool) (db : List Report) (l : List Report)
    (hu : userId.isEmpty = false)
    (h : (AdminContent.handleDeleteReport (some userId) (some sel) keep db).1 =
      some l) :
    ∀ r ∈ l, r.id ≠ sel.id := by
  intro r hr
  have hl : l = db.filter (fun a => keep a && !decide (a.id = sel.id)) := by
    simp [AdminContent.handleDeleteReport, Backend.deleteReport,
      Backend.listReports, hu] at h
    exact h.symm
  subst hl
  have hr2 := (List.mem_filter.mp hr).2
  have hr3 := (Bool.and_eq_true _ _).mp hr2
  have hb : decide (r.id = sel.id) = false := by simpa using hr3.2
  exact of_decide_eq_false hb

theorem deleted_report_not_in_listing_witness :
    ("admin1" : String).isEmpty = false ∧
      (AdminContent.handleDeleteReport (some "admin1")
          (some ⟨"r1", "u1", "e@x.c", "N", "a.mp4", "FAKE", 1, 10, "url", "v1",
            "2024-01-01 00:00:00"⟩)
          (fun _ => true)
          [⟨"r1", "u1", "e@x.c", "N", "a.mp4", "FAKE", 1, 10, "url", "v1",
            "2024-01-01 00:00:00"⟩,
           ⟨"r2", "u2", "f@x.c", "M", "b.mp4", "REAL", 1, 12, "url2", "v1",
            "2024-01-02 00:00:00"⟩]).1 =
        some [⟨"r2", "u2", "f@x.c", "M", "b.mp4", "REAL", 1, 12, "url2", "v1",
          "2024-01-02 00:00:00"⟩] ∧
      ∀ r ∈ [(⟨"r2", "u2", "f@x.c", "M", "b.mp4", "REAL", 1, 12, "url2", "v1",
          "2024-01-02 00:00:00"⟩ : Report)], r.id ≠ "r1" :=
  ⟨rfl, by decide,
    deleted_report_not_in_listing "admin1"
      ⟨"r1", "u1", "e@x.c", "N", "a.mp4", "FAKE", 1, 10, "url", "v1",
        "2024-01-01 00:00:00"⟩
      (fun _ => true)
      [⟨"r1", "u1", "e@x.c", "N", "a.mp4", "FAKE", 1, 10, "url", "v1",
        "2024-01-01 00:00:00"⟩,
       ⟨"r2", "u2", "f@x.c", "M", "b.mp4", "REAL", 1, 12, "url2", "v1",
        "2024-01-02 00:00:00"⟩]
      [⟨"r2", "u2", "f@x.c", "M", "b.mp4", "REAL", 1, 12, "url2", "v1",
        "2024-01-02 00:00:00"⟩]
      rfl (by decide)⟩

/-! ## Claim C5: fixed-interval polling with cleanup -/

theorem le_foldr_max (x : Nat) (l : List Nat) (hx : x ∈ l) : x ≤ l.foldr max 0 := by
  induction l with
  | nil => cases hx
  | cons a l ih =>
    rcases List.mem_cons.mp hx with rfl | h
    · exact le_max_left _ _
    · exact le_trans (ih h) (le_max_right _ _)

theorem freshTimerId_not_mem (st : TimerState) (t : Timer) (ht : t ∈ st) :
    t.id ≠ freshTimerId st := by
  have hle : t.id ≤ (st.map Timer.id).foldr max 0 :=
    le_foldr_max _ _ (List.mem_map_of_mem Timer.id ht)
  unfold freshTimerId
  omega

/-- Installing a fresh interval and then clearing it restores the timer
state. -/
theorem clear_set_interval (a : TimerAction) (p : Nat) (st : TimerState) :
    jsClearInterval (jsSetInterval a p st).1 (jsSetInterval a p st).2 = st := by
  simp only [jsSetInterval, jsClearInterval]
  rw [List.filter_cons_of_neg (by simp)]
  exact List.filter_eq_self.mpr
    (fun t ht => decide_eq_true (freshTimerId_not_mem st t ht))

/-- C5: the client polls on fixed intervals with simple timers: the header
effect installs a 30000 ms interval refetching notifications, the dashboard
effect a 30000 ms interval refetching the dashboard data and the forum effect
a 10000 ms interval refetching the posts, and in each case the cleanup
clears exactly the installed timer. -/
theorem polling_intervals_with_cleanup (st1 st2 st3 : TimerState)
    (uid1 uid2 : String) (isAuthenticated : Bool)
    (h1 : uid1.isEmpty = false) (hAuth : isAuthenticated = true)
    (h2 : uid2.isEmpty = false) :
    ((AppHeader.notificationsEffect (some uid1) isAuthenticated st1).1 =
        some (freshTimerId st1) ∧
      (⟨freshTimerId st1, 30000, .fetchNotifications⟩ : Timer) ∈
        (AppHeader.notificationsEffect (some uid1) isAuthenticated st1).2 ∧
      AppHeader.notificationsCleanup (freshTimerId st1)
        (AppHeader.notificationsEffect (some uid1) isAuthenticated st1).2 = st1) ∧
    ((Dashboard.pollEffect (some uid2) st2).1 = some (freshTimerId st2) ∧
      (⟨freshTimerId st2, 30000, .fetchDashboardData⟩ : Timer) ∈
        (Dashboard.pollEffect (some uid2) st2).2 ∧
      Dashboard.pollCleanup (freshTimerId st2)
        (Dashboard.pollEffect (some uid2) st2).2 = st2) ∧
    ((Forum.pollEffect st3).1 = freshTimerId st3 ∧
      (⟨freshTimerId st3, 10000, .fetchPosts⟩ : Timer) ∈ (Forum.pollEffect st3).2 ∧
      Forum.pollCleanup (Forum.pollEffect st3).1 (Forum.pollEffect st3).2 = st3) := by
  subst hAuth
  refine ⟨⟨?_, ?_, ?_⟩, ⟨?_, ?_, ?_⟩, ⟨?_, ?_, ?_⟩⟩
  · simp [AppHeader.notificationsEffect, h1, jsSetInterval]
  · simp [AppHeader.notificationsEffect, h1, jsSetInterval]
  · simp only [AppHeader.notificationsEffect, AppHeader.notificationsCleanup, h1,
      Bool.not_false, Bool.true_and, if_pos]
    exact clear_set_interval _ _ _
  · simp [Dashboard.pollEffect, h2, jsSetInterval]
  · simp [Dashboard.pollEffect, h2, jsSetInterval]
  · simp only [Dashboard.pollEffect, Dashboard.pollCleanup, h2, Bool.not_false, if_pos]
    exact clear_set_interval _ _ _
  · rfl
  · simp [Forum.pollEffect, jsSetInterval]
  · exact clear_set_interval _ _ _

theorem polling_intervals_with_cleanup_witness :
    ("u1" : String).isEmpty = false ∧ (true = true) ∧
      (((AppHeader.notificationsEffect (some "u1") true []).1 =
          some (freshTimerId []) ∧
        (⟨freshTimerId [], 30000, .fetchNotifications⟩ : Timer) ∈
          (AppHeader.notificationsEffect (some "u1") true []).2 ∧
        AppHeader.notificationsCleanup (freshTimerId [])
          (AppHeader.notificationsEffect (some "u1") true []).2 = []) ∧
      ((Dashboard.pollEffect (some "u1") []).1 = some (freshTimerId []) ∧
        (⟨freshTimerId [], 30000, .fetchDashboardData⟩ : Timer) ∈
          (Dashboard.pollEffect (some "u1") []).2 ∧
        Dashboard.pollCleanup (freshTimerId [])
          (Dashboard.pollEffect (some "u1") []).2 = []) ∧
      ((Forum.pollEffect []).1 = freshTimerId [] ∧
        (⟨freshTimerId [], 10000, .fetchPosts⟩ : Timer) ∈ (Forum.pollEffect []).2 ∧
        Forum.pollCleanup (Forum.pollEffect []).1 (Forum.pollEffect []).2 = [])) :=
  ⟨rfl, rfl, polling_intervals_with_cleanup [] [] [] "u1" "u1" true rfl rfl rfl⟩

/-! ## Claim C6: optimistic mark-as-read touches only the target entry -/

theorem markRead_map_id (nid : String) (l : List Notification)
    (h : ∀ n ∈ l, n.id ≠ nid) :
    l.map (fun n => if n.id = nid then { n with is_read := true } else n) = l := by
  induction l with
  | nil => rfl
  | cons a l ih =>
    simp only [List.map_cons]
    rw [if_neg (h a (List.mem_cons_self a l)),
      ih (fun n hn => h n (List.mem_cons_of_mem a hn))]

theorem markRead_map_eq_set (nid : String) (l : List Notification) (i : Nat)
    (hi : i < l.length) (hnd : (l.map Notification.id).Nodup)
    (hm : (l.get ⟨i, hi⟩).id = nid) :
    l.map (fun n => if n.id = nid then { n with is_read := true } else n) =
      l.set i { l.get ⟨i, hi⟩ with is_read := true } := by
  induction l generalizing i with
  | nil => exact absurd hi (Nat.not_lt_zero i)
  | cons a l ih =>
    have hnd2 : (∀ x ∈ l, ¬ x.id = a.id) ∧ (List.map Notification.id l).Nodup := by
      simpa using hnd
    rcases i with _ | i
    · simp only [List.get] at hm
      simp only [List.map_cons, List.set_cons_zero, List.get]
      rw [if_pos hm]
      rw [markRead_map_id nid l (fun n hn hne => hnd2.1 n hn (hne.trans hm.symm))]
    · have hi2 : i < l.length := Nat.lt_of_succ_lt_succ hi
      simp only [List.get] at hm
      simp only [List.map_cons, List.set_cons_succ, List.get]
      have hane : a.id ≠ nid := fun he =>
        hnd2.1 (l.get ⟨i, hi2⟩) (l.get_mem i hi2) (hm.trans he.symm)
      rw [if_neg hane, ih i hi2 hnd2.2 hm]

/-- C6: AppHeader.handleMarkAsRead replaces exactly the target notification
(identified by its id, ids being distinct) with a copy whose is_read is true,
leaves every other notification and every other field of the target
unchanged, and decrements unreadCount by exactly one unless it is already 0,
in which case it stays 0 (it is never negative). -/
theorem handleMarkAsRead_optimistic (uid nid : String) (l : List Notification)
    (unread : Int) (i : Nat) (hi : i < l.length)
    (huid : uid.isEmpty = false) (hun : 0 ≤ unread)
    (hnd : (l.map Notification.id).Nodup)
    (hm : (l.get ⟨i, hi⟩).id = nid) :
    AppHeader.handleMarkAsRead (some uid) nid l unread =
      (l.set i { l.get ⟨i, hi⟩ with is_read := true },
        if unread = 0 then 0 else unread - 1) ∧
    (l.set i { l.get ⟨i, hi⟩ with is_read := true }).length = l.length ∧
    (∀ j (hj : j < l.length), j ≠ i →
      (l.set i { l.get ⟨i, hi⟩ with is_read := true }).get
          ⟨j, by rw [List.length_set]; exact hj⟩ = l.get ⟨j, hj⟩) ∧
    (l.set i { l.get ⟨i, hi⟩ with is_read := true }).get
        ⟨i, by rw [List.length_set]; exact hi⟩ =
      { l.get ⟨i, hi⟩ with is_read := true } ∧
    0 ≤ (if unread = 0 then (0 : Int) else unread - 1) := by
  refine ⟨?_, List.length_set l i _, ?_, ?_, ?_⟩
  · have hmax : max 0 (unread - 1) = if unread = 0 then (0 : Int) else unread - 1 := by
      split_ifs with h0
      · rw [h0]; decide
      · exact max_eq_right (by omega)
    simp only [AppHeader.handleMarkAsRead, huid, Bool.false_eq_true, if_false]
    rw [markRead_map_eq_set nid l i hi hnd hm, hmax]
  · intro j hj hne
    rw [List.get_eq_getElem, List.get_eq_getElem]
    exact List.getElem_set_of_ne (fun he => hne he.symm) _ _
  · rw [List.get_eq_getElem]
    simp
  · split_ifs with h0
    · exact le_refl 0
    · omega

theorem handleMarkAsRead_optimistic_witness :
    ("u1" : String).isEmpty = false ∧ (0 : Int) ≤ 2 ∧
      ([⟨"n1", "t1", "m1", "info", "ts1", false⟩,
          ⟨"n2", "t2", "m2", "alert", "ts2", false⟩].map
        Notification.id).Nodup ∧
      (([⟨"n1", "t1", "m1", "info", "ts1", false⟩,
          ⟨"n2", "t2", "m2", "alert", "ts2", false⟩] :
            List Notification).get ⟨0, by decide⟩).id = "n1" ∧
      AppHeader.handleMarkAsRead (some "u1") "n1"
          [⟨"n1", "t1", "m1", "info", "ts1", false⟩,
            ⟨"n2", "t2", "m2", "alert", "ts2", false⟩] 2 =
        (([⟨"n1", "t1", "m1", "info", "ts1", false⟩,
            ⟨"n2", "t2", "m2", "alert", "ts2", false⟩] :
              List Notification).set 0
          { ([⟨"n1", "t1", "m1", "info", "ts1", false⟩,
              ⟨"n2", "t2", "m2", "alert", "ts2", false⟩] :
                List Notification).get ⟨0, by decide⟩ with is_read := true },
          if (2 : Int) = 0 then 0 else 2 - 1) :=
  ⟨rfl, by decide, by decide, rfl,
    (handleMarkAsRead_optimistic "u1" "n1"
      [⟨"n1", "t1", "m1", "info", "ts1", false⟩,
        ⟨"n2", "t2", "m2", "alert", "ts2", false⟩] 2 0 (by decide)
      rfl (by decide) (by decide) rfl).1⟩

/-! ## Claim C7: profile password form validation -/

theorem isEmpty_false_of_ne (s : String) (h : s ≠ "") : s.isEmpty = false := by
  cases hb : s.isEmpty with
  | false => rfl
  | true => exact absurd ((String.isEmpty_iff s).mp hb) h

theorem ne_of_isEmpty_false (s : String) (h : s.isEmpty = false) : s ≠ "" := by
  intro he
  rw [he] at h
  exact absurd h (by decide)

theorem validatePassword_none_iff (p : String) :
    Profile.validatePassword p = none ↔
      (8 ≤ p.length ∧ (∃ c ∈ p.toList, 'a' ≤ c ∧ c ≤ 'z') ∧
        (∃ c ∈ p.toList, 'A' ≤ c ∧ c ≤ 'Z') ∧ (∃ c ∈ p.toList, '0' ≤ c ∧ c ≤ '9')) := by
  constructor
  · intro h
    unfold Profile.validatePassword at h
    split_ifs at h with h1 h2 h3 h4
    refine ⟨Nat.le_of_not_lt h1, ?_, ?_, ?_⟩
    · have := List.any_eq_true.mp (by simpa using h2)
      rcases this with ⟨c, hc, hcp⟩
      exact ⟨c, hc, by simpa [isLowerAlpha] using hcp⟩
    · have := List.any_eq_true.mp (by simpa using h3)
      rcases this with ⟨c, hc, hcp⟩
      exact ⟨c, hc, by simpa [isUpperAlpha] using hcp⟩
    · have := List.any_eq_true.mp (by simpa using h4)
      rcases this with ⟨c, hc, hcp⟩
      exact ⟨c, hc, by simpa [isDigitChar] using hcp⟩
  · rintro ⟨hl, ⟨c1, hc1, hc1p⟩, ⟨c2, hc2, hc2p⟩, ⟨c3, hc3, hc3p⟩⟩
    unfold Profile.validatePassword
    rw [if_neg (Nat.not_lt.mpr hl),
      if_neg (by
        simp only [Bool.not_eq_true', Bool.not_eq_false]
        exact List.any_eq_true.mpr ⟨c1, hc1, by simpa [isLowerAlpha] using hc1p⟩),
      if_neg (by
        simp only [Bool.not_eq_true', Bool.not_eq_false]
        exact List.any_eq_true.mpr ⟨c2, hc2, by simpa [isUpperAlpha] using hc2p⟩),
      if_neg (by
        simp only [Bool.not_eq_true', Bool.not_eq_false]
        exact List.any_eq_true.mpr ⟨c3, hc3, by simpa [isDigitChar] using hc3p⟩)]

/-- C7: validatePassword accepts exactly the strings of length at least 8
containing a lowercase letter, an uppercase letter and a digit; and whenever
any of the three password fields is non-empty, handleSave only calls
updateProfile when the current password is non-empty, the new password is
non-empty and passes validatePassword, and the new password equals the
confirmation. -/
theorem profile_password_validation (p : String) (userId : Option String)
    (profile : Option ProfileData)
    (name currentPassword newPassword confirmPassword : String) :
    (Profile.validatePassword p = none ↔
      (8 ≤ p.length ∧ (∃ c ∈ p.toList, 'a' ≤ c ∧ c ≤ 'z') ∧
        (∃ c ∈ p.toList, 'A' ≤ c ∧ c ≤ 'Z') ∧
        (∃ c ∈ p.toList, '0' ≤ c ∧ c ≤ '9'))) ∧
    ((currentPassword ≠ "" ∨ newPassword ≠ "" ∨ confirmPassword ≠ "") →
      Profile.handleSave userId profile name currentPassword newPassword
          confirmPassword ≠ none →
      (currentPassword ≠ "" ∧ newPassword ≠ "" ∧
        Profile.validatePassword newPassword = none ∧
        newPassword = confirmPassword)) := by
  refine ⟨validatePassword_none_iff p, fun hany hcall => ?_⟩
  have hor : (!newPassword.isEmpty || !confirmPassword.isEmpty ||
      !currentPassword.isEmpty) = true := by
    rcases hany with h | h | h <;>
      simp [isEmpty_false_of_ne _ h]
  rcases userId with _ | uid
  · exact absurd rfl hcall
  rcases profile with _ | prof
  · exact absurd rfl hcall
  by_cases hu : uid.isEmpty = true
  · simp [Profile.handleSave, hu] at hcall
  by_cases hcur : currentPassword.isEmpty = true
  · simp [Profile.handleSave, hu, hor, hcur] at hcall
    rcases hany with h | h | h
    · exact absurd ((String.isEmpty_iff _).mp hcur) h
    · exact absurd ((String.isEmpty_iff _).mp hcall.1) h
    · exact absurd ((String.isEmpty_iff _).mp hcall.2) h
  by_cases hnew : newPassword.isEmpty = true
  · simp [Profile.handleSave, hu, hor, hcur, hnew] at hcall
  by_cases heq : newPassword = confirmPassword
  · refine ⟨ne_of_isEmpty_false _ (Bool.not_eq_true _ ▸ hcur),
      ne_of_isEmpty_false _ (Bool.not_eq_true _ ▸ hnew), ?_, heq⟩
    by_cases hval : Profile.validatePassword newPassword = none
    · exact hval
    · exfalso
      have hvs : (Profile.validatePassword newPassword).isSome = true :=
        Option.ne_none_iff_isSome.mp hval
      simp [Profile.handleSave, hu, hor, hcur, hnew, heq, hvs] at hcall
      exact hval (by rw [heq]; exact hcall.2)
  · simp [Profile.handleSave, hu, hor, hcur, hnew, heq] at hcall

theorem profile_password_validation_witness :
    (Profile.validatePassword "Abcdef12" = none ↔
      (8 ≤ ("Abcdef12" : String).length ∧
        (∃ c ∈ ("Abcdef12" : String).toList, 'a' ≤ c ∧ c ≤ 'z') ∧
        (∃ c ∈ ("Abcdef12" : String).toList, 'A' ≤ c ∧ c ≤ 'Z') ∧
        (∃ c ∈ ("Abcdef12" : String).toList, '0' ≤ c ∧ c ≤ '9'))) ∧
      (("old1" : String) ≠ "" ∨ ("Abcdef12" : String) ≠ "" ∨
        ("Abcdef12" : String) ≠ "") ∧
      (Profile.handleSave (some "u1") (some ⟨"Name"⟩) "Name" "old1" "Abcdef12"
          "Abcdef12" ≠ none →
        (("old1" : String) ≠ "" ∧ ("Abcdef12" : String) ≠ "" ∧
          Profile.validatePassword "Abcdef12" = none ∧
          ("Abcdef12" : String) = "Abcdef12")) :=
  ⟨(profile_password_validation "Abcdef12" (some "u1") (some ⟨"Name"⟩) "Name"
      "old1" "Abcdef12" "Abcdef12").1,
    Or.inl (by decide),
    (profile_password_validation "Abcdef12" (some "u1") (some ⟨"Name"⟩) "Name"
      "old1" "Abcdef12" "Abcdef12").2 (Or.inl (by decide))⟩

/-! ## Claim C9: upload input guard -/

/-- C9: validateFile accepts exactly the files whose MIME type is one of the
five allowed video types and whose size is at most 500*1024*1024 bytes; for a
file violating either condition validateFile returns a non-null message and
Dashboard.handleFileSelect neither stores the file nor starts an upload. -/
theorem upload_file_guard (fmtMB : Nat → String) (file : JsFile) :
    (UploadPage.validateFile fmtMB file = none ↔
      (file.type ∈ allowedTypes ∧ file.size ≤ maxFileSize)) ∧
    ((file.type ∉ allowedTypes ∨ maxFileSize < file.size) →
      UploadPage.validateFile fmtMB file ≠ none ∧
        Dashboard.handleFileSelect file = none) := by
  by_cases hmem : file.type ∈ allowedTypes
  · by_cases hsize : file.size ≤ maxFileSize
    · refine ⟨⟨fun _ => ⟨hmem, hsize⟩, fun _ => ?_⟩, fun hbad => ?_⟩
      · simp [UploadPage.validateFile, hmem, Nat.not_lt.mpr hsize]
      · rcases hbad with h | h
        · exact absurd hmem h
        · exact absurd hsize (Nat.not_le.mpr h)
    · constructor
      · constructor
        · intro h
          simp [UploadPage.validateFile, hmem, Nat.lt_of_not_le hsize] at h
        · rintro ⟨_, h⟩
          exact absurd h hsize
      · intro _
        constructor
        · simp [UploadPage.validateFile, hmem, Nat.lt_of_not_le hsize]
        · simp [Dashboard.handleFileSelect, hmem, Nat.lt_of_not_le hsize]
  · constructor
    · constructor
      · intro h
        simp [UploadPage.validateFile, hmem] at h
      · rintro ⟨h, _⟩
        exact absurd h hmem
    · intro _
      constructor
      · simp [UploadPage.validateFile, hmem]
      · simp [Dashboard.handleFileSelect, hmem]

theorem upload_file_guard_witness :
    (UploadPage.validateFile (fun _ => "600.0") ⟨"big.mp4", "video/mp4", 600 * 1024 * 1024⟩ =
        none ↔
      (("video/mp4" : String) ∈ allowedTypes ∧ 600 * 1024 * 1024 ≤ maxFileSize)) ∧
      (UploadPage.validateFile (fun _ => "600.0")
          ⟨"big.mp4", "video/mp4", 600 * 1024 * 1024⟩ ≠ none ∧
        Dashboard.handleFileSelect ⟨"big.mp4", "video/mp4", 600 * 1024 * 1024⟩ = none) :=
  ⟨(upload_file_guard (fun _ => "600.0")
      ⟨"big.mp4", "video/mp4", 600 * 1024 * 1024⟩).1,
    (upload_file_guard (fun _ => "600.0")
      ⟨"big.mp4", "video/mp4", 600 * 1024 * 1024⟩).2 (Or.inr (by decide))⟩

/-! ## Claim C8: CSV and PDF export glue -/

/-- Occurrences of a character in a string. -/
def countChar (c : Char) (s : String) : Nat := s.toList.count c

theorem strToList_append (a b : String) : (a ++ b).toList = a.toList ++ b.toList := by
  simp [String.toList]

theorem countChar_append (c : Char) (a b : String) :
    countChar c (a ++ b) = countChar c a + countChar c b := by
  simp [countChar, strToList_append]

theorem jsJoin_cons₂ (sep a b : String) (l : List String) :
    jsJoin sep (a :: b :: l) = a ++ sep ++ jsJoin sep (b :: l) := rfl

theorem countChar_jsJoin_zero (c : Char) (sep : String) (hsep : countChar c sep = 0)
    (l : List String) (h : ∀ s ∈ l, countChar c s = 0) :
    countChar c (jsJoin sep l) = 0 := by
  induction l with
  | nil => rfl
  | cons a t ih =>
    cases t with
    | nil => exact h a (List.mem_cons_self a [])
    | cons b t2 =>
      rw [jsJoin_cons₂, countChar_append, countChar_append,
        h a (List.mem_cons_self a _), hsep,
        ih (fun s hs => h s (List.mem_cons_of_mem a hs))]

theorem countChar_jsJoin_newline (l : List String) (hne : l ≠ [])
    (h : ∀ s ∈ l, countChar '\n' s = 0) :
    countChar '\n' (jsJoin "\n" l) = l.length - 1 := by
  induction l with
  | nil => exact absurd rfl hne
  | cons a t ih =>
    cases t with
    | nil => simpa using h a (List.mem_cons_self a [])
    | cons b t2 =>
      rw [jsJoin_cons₂, countChar_append, countChar_append,
        h a (List.mem_cons_self a _),
        ih (List.cons_ne_nil b t2) (fun s hs => h s (List.mem_cons_of_mem a hs))]
      have h1 : countChar '\n' "\n" = 1 := rfl
      rw [h1]
      simp only [List.length_cons]
      omega

theorem jsJoin_mem_split (sep : String) (l : List String) (s : String) (hs : s ∈ l) :
    ∃ u v : String, jsJoin sep l = u ++ s ++ v := by
  induction l with
  | nil => cases hs
  | cons a t ih =>
    cases t with
    | nil =>
      rcases List.mem_singleton.mp hs with rfl
      refine ⟨"", "", ?_⟩
      show s = "" ++ s ++ ""
      simp
    | cons b t2 =>
      rcases List.mem_cons.mp hs with rfl | hmem
      · exact ⟨"", sep ++ jsJoin sep (b :: t2), by
          rw [jsJoin_cons₂]
          simp [String.append_assoc]⟩
      · rcases ih hmem with ⟨u, v, huv⟩
        exact ⟨a ++ sep ++ u, v, by
          rw [jsJoin_cons₂, huv]
          simp [String.append_assoc]⟩

/-- C8: for a non-empty filtered report list whose rendered cells contain no
newline, exportToCSV produces a CSV whose first line is the fixed six-column
header, which has exactly one line per filtered report (one newline per
report), and which contains, for every filtered report, its row of
double-quote-wrapped cells; exportToPDF renders at most the first 25 filtered
reports in its table and appends the note page exactly when more than 25
exist. -/
theorem export_glue (fmt2 fmt0 : Rat → String) (filtered : List Report)
    (hne : filtered ≠ [])
    (hclean : ∀ r ∈ filtered, ∀ cell ∈ csvRow fmt2 r, countChar '\n' cell = 0) :
    (∃ csv, AdminContent.exportToCSV fmt2 filtered = some csv ∧
      (∃ rest, csv = jsJoin "," csvHeaders ++ "\n" ++ rest) ∧
      countChar '\n' csv = filtered.length ∧
      (∀ r ∈ filtered, ∃ u v, csv =
        u ++ jsJoin "," ((csvRow fmt2 r).map (fun c => "\"" ++ c ++ "\"")) ++ v)) ∧
    (∃ d, AdminContent.exportToPDF fmt0 filtered = some d ∧
      d.tableRows = (filtered.take 25).map (pdfRow fmt0) ∧
      d.tableRows.length ≤ 25 ∧
      (d.notePage.isSome ↔ 25 < filtered.length) ∧
      (25 < filtered.length →
        d.notePage = some ("Note: Showing first 25 of " ++
          toString filtered.length ++ " reports"))) := by
  have hlen0 : ¬ filtered.length = 0 := fun h => hne (List.length_eq_zero.mp h)
  have hline0 : ∀ s ∈ (jsJoin "," csvHeaders ::
      filtered.map (fun r =>
        jsJoin "," ((csvRow fmt2 r).map (fun c => "\"" ++ c ++ "\"")))),
      countChar '\n' s = 0 := by
    intro s hs
    rcases List.mem_cons.mp hs with rfl | hmem
    · decide
    · rcases List.mem_map.mp hmem with ⟨r, hr, rfl⟩
      refine countChar_jsJoin_zero '\n' "," rfl _ ?_
      intro cell hcell
      rcases List.mem_map.mp hcell with ⟨c0, hc0, rfl⟩
      rw [countChar_append, countChar_append, hclean r hr c0 hc0]
      decide
  constructor
  · refine ⟨jsJoin "\n" (jsJoin "," csvHeaders ::
      filtered.map (fun r =>
        jsJoin "," ((csvRow fmt2 r).map (fun c => "\"" ++ c ++ "\"")))), ?_, ?_, ?_, ?_⟩
    · simp only [AdminContent.exportToCSV, hlen0, if_false]
    · rcases hf : filtered with _ | ⟨r, t⟩
      · exact absurd hf hne
      · exact ⟨jsJoin "\n" ((r :: t).map (fun x =>
          jsJoin "," ((csvRow fmt2 x).map (fun c => "\"" ++ c ++ "\"")))), by
            rw [List.map_cons, jsJoin_cons₂]⟩
    · have := countChar_jsJoin_newline _ (List.cons_ne_nil _ _) hline0
      rw [this]
      simp
    · intro r hr
      exact jsJoin_mem_split "\n" _ _
        (List.mem_cons_of_mem _ (List.mem_map_of_mem _ hr))
  · refine ⟨⟨(filtered.take 25).map (pdfRow fmt0),
      if filtered.length > 25 then
        some ("Note: Showing first 25 of " ++ toString filtered.length ++ " reports")
      else none⟩, ?_, rfl, ?_, ?_, ?_⟩
    · simp only [AdminContent.exportToPDF, hlen0, if_false]
    · rw [List.length_map, List.length_take]
      exact min_le_left _ _
    · by_cases h25 : 25 < filtered.length
      · simp [h25]
      · simp [h25]
    · intro h25
      simp [h25]

theorem export_glue_witness :
    ([⟨"r1", "u1", "e", "N", "a", "FAKE", 1, 1, "u", "v", "d1 t1"⟩,
        ⟨"r2", "u2", "f", "M", "b", "REAL", 1, 2, "w", "v", "d2 t2"⟩] :
      List Report) ≠ [] ∧
    ((∃ csv, AdminContent.exportToCSV (fun _ => "95.00")
          [⟨"r1", "u1", "e", "N", "a", "FAKE", 1, 1, "u", "v", "d1 t1"⟩,
            ⟨"r2", "u2", "f", "M", "b", "REAL", 1, 2, "w", "v", "d2 t2"⟩] = some csv ∧
        (∃ rest, csv = jsJoin "," csvHeaders ++ "\n" ++ rest) ∧
        countChar '\n' csv =
          ([⟨"r1", "u1", "e", "N", "a", "FAKE", 1, 1, "u", "v", "d1 t1"⟩,
            ⟨"r2", "u2", "f", "M", "b", "REAL", 1, 2, "w", "v", "d2 t2"⟩] :
              List Report).length ∧
        (∀ r ∈ ([⟨"r1", "u1", "e", "N", "a", "FAKE", 1, 1, "u", "v", "d1 t1"⟩,
            ⟨"r2", "u2", "f", "M", "b", "REAL", 1, 2, "w", "v", "d2 t2"⟩] :
              List Report), ∃ u v, csv =
          u ++ jsJoin "," ((csvRow (fun _ => "95.00") r).map
            (fun c => "\"" ++ c ++ "\"")) ++ v)) ∧
      (∃ d, AdminContent.exportToPDF (fun _ => "95")
          [⟨"r1", "u1", "e", "N", "a", "FAKE", 1, 1, "u", "v", "d1 t1"⟩,
            ⟨"r2", "u2", "f", "M", "b", "REAL", 1, 2, "w", "v", "d2 t2"⟩] = some d ∧
        d.tableRows =
          (([⟨"r1", "u1", "e", "N", "a", "FAKE", 1, 1, "u", "v", "d1 t1"⟩,
            ⟨"r2", "u2", "f", "M", "b", "REAL", 1, 2, "w", "v", "d2 t2"⟩] :
              List Report).take 25).map (pdfRow (fun _ => "95")) ∧
        d.tableRows.length ≤ 25 ∧
        (d.notePage.isSome ↔ 25 <
          ([⟨"r1", "u1", "e", "N", "a", "FAKE", 1, 1, "u", "v", "d1 t1"⟩,
            ⟨"r2", "u2", "f", "M", "b", "REAL", 1, 2, "w", "v", "d2 t2"⟩] :
              List Report).length) ∧
        (25 < ([⟨"r1", "u1", "e", "N", "a", "FAKE", 1, 1, "u", "v", "d1 t1"⟩,
            ⟨"r2", "u2", "f", "M", "b", "REAL", 1, 2, "w", "v", "d2 t2"⟩] :
              List Report).length →
          d.notePage = some ("Note: Showing first 25 of " ++
            toString ([⟨"r1", "u1", "e", "N", "a", "FAKE", 1, 1, "u", "v", "d1 t1"⟩,
              ⟨"r2", "u2", "f", "M", "b", "REAL", 1, 2, "w", "v", "d2 t2"⟩] :
                List Report).length ++ " reports")))) :=
  ⟨by decide,
    export_glue (fun _ => "95.00") (fun _ => "95")
      [⟨"r1", "u1", "e", "N", "a", "FAKE", 1, 1, "u", "v", "d1 t1"⟩,
        ⟨"r2", "u2", "f", "M", "b", "REAL", 1, 2, "w", "v", "d2 t2"⟩]
      (by decide) (by decide)⟩
